import Mathlib

/-!
Shallow embedding of the ArtStyleFHE contract (src/contracts/ArtStyleFHE.sol).

Ciphertexts (euint32) are modelled as a pair of a handle (the bytes32
reference that the contract can compare and pass around) and the underlying
plaintext value; trivial encryption via asEuint32 produces a deterministic
handle disjoint from small caller-chosen external handles.  Solidity
mappings become total functions with the zero record as default; reverts
become Except.error leaving the pre-state untouched (a revert rolls the
whole call back).  Oracle request ids and the decoded callback payloads are
parameters supplied by the environment; a valid attestation check
(FHE.checkSignatures) is the proofOk flag, false meaning the revert branch.
-/

namespace ArtStyleFHE

/-- An euint32 ciphertext: an opaque handle plus the plaintext it encrypts. -/
structure EUint32 where
  handle : Nat
  value : Nat
deriving Repr, DecidableEq

/-- FHE.asEuint32: trivial encryption, deterministic handle in a dedicated range. -/
def asEuint32 (v : Nat) : EUint32 :=
  ⟨2 ^ 32 + v % 2 ^ 32, v % 2 ^ 32⟩

/-- FHE.decrypt: recover the plaintext of a ciphertext. -/
def decryptE (c : EUint32) : Nat := c.value

def zeroE : EUint32 := ⟨0, 0⟩

structure Artwork where
  encryptedImageHash : EUint32
  encryptedStyleVector : EUint32
  encryptedArtistId : EUint32
  timestamp : Nat
deriving Repr, DecidableEq

structure StyleMatch where
  encryptedSimilarityScore : EUint32
  encryptedReferenceId : EUint32
  isVerified : Bool
deriving Repr, DecidableEq

structure ArtistProfile where
  encryptedSignatureVector : EUint32
  artworkCount : Nat
deriving Repr, DecidableEq

/-- Contract storage.  Mappings are total functions defaulting to the zero record. -/
structure ContractState where
  artworkCount : Nat
  artistCount : Nat
  analysisCount : Nat
  artworks : Nat → Artwork
  styleMatches : Nat → StyleMatch
  artistProfiles : Nat → ArtistProfile
  requestToArtworkId : Nat → Nat
  requestToAnalysisId : Nat → Nat

/-- Solidity mapping write: point update. -/
def mapUpdate {α : Type} (m : Nat → α) (k : Nat) (v : α) : Nat → α :=
  fun i => if i = k then v else m i

def initState : ContractState where
  artworkCount := 0
  artistCount := 0
  analysisCount := 0
  artworks := fun _ => ⟨zeroE, zeroE, zeroE, 0⟩
  styleMatches := fun _ => ⟨zeroE, zeroE, false⟩
  artistProfiles := fun _ => ⟨zeroE, 0⟩
  requestToArtworkId := fun _ => 0
  requestToAnalysisId := fun _ => 0

/-- Revert reasons of the contract (require messages / runtime reverts). -/
inductive Err where
  | invalidArtwork
  | invalidReference
  | invalidRequest
  | invalidAnalysis
  | invalidArtist
  | notVerified
  | attestationInvalid
  | decodeError
  | boundsError
  | overflow
deriving Repr, DecidableEq

def isOk {ε α : Type} : Except ε α → Bool
  | Except.ok _ => true
  | Except.error _ => false

/-- abi.decode(-, (uint32[])) succeeds only with genuine uint32 entries. -/
def uint32ListOk (xs : List Nat) : Bool :=
  xs.all (fun x => decide (x < 2 ^ 32))

/-- The similarity loop of analyzeStyle: checked uint32 arithmetic,
`acc + v1[i] * v2[i]` over the indices of the first vector, reading the
second at the same index (out of range reverts, as does overflow). -/
def checkedDot : List Nat → List Nat → Nat → Option Nat
  | [], _, acc => some acc
  | _ :: _, [], _ => none
  | a :: as, b :: bs, acc =>
    if a * b < 2 ^ 32 ∧ acc + a * b < 2 ^ 32 then
      checkedDot as bs (acc + a * b)
    else none

/-- registerArtist (lines 40-48). -/
def registerArtist (s : ContractState) (signatureVector : EUint32) : ContractState :=
  let n := s.artistCount + 1
  { s with
    artistCount := n
    artistProfiles := mapUpdate s.artistProfiles n ⟨signatureVector, 0⟩ }

/-- submitArtwork (lines 50-68).  The guard on line 63 compares the euint32
handle of artistId with the handle of a fresh trivial encryption of 0, and
line 64 increments the profile at the decrypted id without any existence
check. -/
def submitArtwork (s : ContractState) (imageHash styleVector artistId : EUint32)
    (ts : Nat) : ContractState :=
  let n := s.artworkCount + 1
  let s1 : ContractState :=
    { s with
      artworkCount := n
      artworks := mapUpdate s.artworks n ⟨imageHash, styleVector, artistId, ts⟩ }
  if artistId.handle ≠ (asEuint32 0).handle then
    let k := decryptE artistId
    { s1 with
      artistProfiles := mapUpdate s1.artistProfiles k
        { s1.artistProfiles k with artworkCount := (s1.artistProfiles k).artworkCount + 1 } }
  else s1

/-- requestStyleAnalysis (lines 70-88).  reqId is the token returned by
FHE.requestDecryption. -/
def requestStyleAnalysis (s : ContractState) (artworkId referenceId reqId : Nat) :
    Except Err ContractState :=
  if s.artworkCount < artworkId then Except.error Err.invalidArtwork
  else if s.artworkCount < referenceId then Except.error Err.invalidReference
  else
    Except.ok
      { s with
        requestToArtworkId := mapUpdate s.requestToArtworkId reqId artworkId
        requestToAnalysisId := mapUpdate s.requestToAnalysisId reqId referenceId }

/-- analyzeStyle (lines 90-126).  styleVector1 and styleVector2 are freshly
allocated zero arrays of length `vectors.length / 4` (the source never
copies the decoded payload into them); the two artist ids are read at
indices length/2 and length/2 + 1. -/
def analyzeStyle (s : ContractState) (requestId : Nat) (cleartexts : List Nat)
    (proofOk : Bool) : Except Err ContractState :=
  let artworkId := s.requestToArtworkId requestId
  let referenceId := s.requestToAnalysisId requestId
  if artworkId = 0 ∨ referenceId = 0 then Except.error Err.invalidRequest
  else if proofOk = false then Except.error Err.attestationInvalid
  else if uint32ListOk cleartexts = false then Except.error Err.decodeError
  else
    let vectors := cleartexts
    let styleVector1 : List Nat := List.replicate (vectors.length / 4) 0
    let styleVector2 : List Nat := List.replicate (vectors.length / 4) 0
    match vectors.get? (vectors.length / 2), vectors.get? (vectors.length / 2 + 1) with
    | some artistId1, some artistId2 =>
      match checkedDot styleVector1 styleVector2 0 with
      | none => Except.error Err.overflow
      | some similarity =>
        let n := s.analysisCount + 1
        let sm : StyleMatch :=
          ⟨asEuint32 similarity, asEuint32 (referenceId % 2 ^ 32), false⟩
        let s1 : ContractState :=
          { s with
            analysisCount := n
            styleMatches := mapUpdate s.styleMatches n sm }
        if artistId1 = artistId2 ∧ artistId1 ≠ 0 then
          Except.ok
            { s1 with
              styleMatches := mapUpdate s1.styleMatches n
                { s1.styleMatches n with isVerified := true } }
        else Except.ok s1
    | _, _ => Except.error Err.boundsError

/-- verifyAuthenticity (lines 128-141). -/
def verifyAuthenticity (s : ContractState) (analysisId artistId reqId : Nat) :
    Except Err ContractState :=
  if s.analysisCount < analysisId then Except.error Err.invalidAnalysis
  else if s.artistCount < artistId then Except.error Err.invalidArtist
  else
    Except.ok
      { s with requestToAnalysisId := mapUpdate s.requestToAnalysisId reqId analysisId }

/-- The authenticity rule on line 158. -/
def verdictRule (similarityScore signatureMatch : Nat) : Bool :=
  decide (7000 < similarityScore ∧ 8000 < signatureMatch)

/-- checkSignature (lines 143-162). -/
def checkSignature (s : ContractState) (requestId : Nat) (cleartexts : List Nat)
    (proofOk : Bool) : Except Err ContractState :=
  let analysisId := s.requestToAnalysisId requestId
  if analysisId = 0 then Except.error Err.invalidRequest
  else if proofOk = false then Except.error Err.attestationInvalid
  else if uint32ListOk cleartexts = false then Except.error Err.decodeError
  else
    match cleartexts with
    | similarityScore :: signatureMatch :: _ =>
      Except.ok
        { s with
          styleMatches := mapUpdate s.styleMatches analysisId
            { s.styleMatches analysisId with
              isVerified := verdictRule similarityScore signatureMatch } }
    | _ => Except.error Err.boundsError

/-- requestAnalysisProof (lines 164-173). -/
def requestAnalysisProof (s : ContractState) (analysisId reqId : Nat) :
    Except Err ContractState :=
  if s.analysisCount < analysisId then Except.error Err.invalidAnalysis
  else if (s.styleMatches analysisId).isVerified = false then Except.error Err.notVerified
  else
    Except.ok
      { s with requestToAnalysisId := mapUpdate s.requestToAnalysisId reqId analysisId }

/-- decryptSimilarity (lines 175-187): decodes a single uint32 and writes nothing. -/
def decryptSimilarity (s : ContractState) (requestId : Nat) (cleartexts : List Nat)
    (proofOk : Bool) : Except Err ContractState :=
  let analysisId := s.requestToAnalysisId requestId
  if analysisId = 0 then Except.error Err.invalidRequest
  else if proofOk = false then Except.error Err.attestationInvalid
  else
    match cleartexts with
    | [v] => if v < 2 ^ 32 then Except.ok s else Except.error Err.decodeError
    | _ => Except.error Err.decodeError

/-- getVerificationStatus (lines 193-195). -/
def getVerificationStatus (s : ContractState) (analysisId : Nat) : Bool :=
  (s.styleMatches analysisId).isVerified

/-- getArtworkCount (lines 189-191). -/
def getArtworkCount (s : ContractState) : Nat := s.artworkCount

/-- getArtistArtworkCount (lines 197-199). -/
def getArtistArtworkCount (s : ContractState) (artistId : Nat) : Nat :=
  (s.artistProfiles artistId).artworkCount

/-- One state transition of the contract: any public mutating entry point,
callbacks included, succeeding on some arguments. -/
inductive Step : ContractState → ContractState → Prop where
  | register (s : ContractState) (sig : EUint32) : Step s (registerArtist s sig)
  | submit (s : ContractState) (ih sv aid : EUint32) (ts : Nat) :
      Step s (submitArtwork s ih sv aid ts)
  | reqAnalysis (s s' : ContractState) (a r q : Nat)
      (h : requestStyleAnalysis s a r q = Except.ok s') : Step s s'
  | analyze (s s' : ContractState) (q : Nat) (p : List Nat) (pk : Bool)
      (h : analyzeStyle s q p pk = Except.ok s') : Step s s'
  | verify (s s' : ContractState) (a art q : Nat)
      (h : verifyAuthenticity s a art q = Except.ok s') : Step s s'
  | checkSig (s s' : ContractState) (q : Nat) (p : List Nat) (pk : Bool)
      (h : checkSignature s q p pk = Except.ok s') : Step s s'
  | reqProof (s s' : ContractState) (a q : Nat)
      (h : requestAnalysisProof s a q = Except.ok s') : Step s s'
  | decSim (s s' : ContractState) (q : Nat) (p : List Nat) (pk : Bool)
      (h : decryptSimilarity s q p pk = Except.ok s') : Step s s'

/-- States the deployed contract can reach from its initial storage. -/
inductive Reachable : ContractState → Prop where
  | init : Reachable initState
  | step {s s' : ContractState} : Reachable s → Step s s' → Reachable s'

/-- Extract the post-state of a successful call, falling back to a default
on revert; the concrete traces below only apply it to succeeding calls. -/
def okOr (e : Except Err ContractState) (d : ContractState) : ContractState :=
  match e with
  | Except.ok s => s
  | Except.error _ => d

/-! ### A concrete execution trace used by several of the claims

One artist (id 1), two artworks (ids 1 and 2, both with trivially encrypted
zero artist references so no profile count moves), a style-analysis request
correlated under oracle token 7, its callback, a verification request under
token 11 and its callback. -/

def S1 : ContractState := registerArtist initState (asEuint32 9)

def S2 : ContractState := submitArtwork S1 (asEuint32 11) (asEuint32 21) (asEuint32 0) 100

def S3 : ContractState := submitArtwork S2 (asEuint32 12) (asEuint32 22) (asEuint32 0) 200

def S4 : ContractState := okOr (requestStyleAnalysis S3 1 2 7) S3

def S5 : ContractState := okOr (analyzeStyle S4 7 [1, 2, 3, 4, 5, 6] true) S4

def S6 : ContractState := okOr (verifyAuthenticity S5 1 1 11) S5

def S7 : ContractState := okOr (checkSignature S6 11 [8000, 9000] true) S6

def S8 : ContractState := okOr (checkSignature S7 11 [5000, 9000] true) S7

/-- Post-state of replaying the token-7 score callback a second time. -/
def S5replay : ContractState := okOr (analyzeStyle S5 7 [1, 2, 3, 4, 5, 6] true) S5

/-- Post-state of delivering the token-7 score-request token to the
signature-verification callback handler. -/
def S4cross : ContractState := okOr (checkSignature S4 7 [9000, 9000] true) S4

/-- C1: replaying the identical (token, payload, attestation) score callback
is accepted a second time rather than failing, and it appends a fresh
StyleMatch record, so the state after the replay differs from the state
after the first delivery (analysisCount goes from 1 to 2): the correlation
entry for token 7 is never consumed. -/
theorem c1_replay_accepted :
    S5.analysisCount = 1 ∧
      analyzeStyle S5 7 [1, 2, 3, 4, 5, 6] true = Except.ok S5replay ∧
      S5replay.analysisCount = 2 := by
  refine ⟨rfl, rfl, rfl⟩

/-- C2: the score callback that decodes to the vectors [1,2,3] and [4,5,6]
stores a similarity score of 0, not the dot product 32: the source
allocates styleVector1 and styleVector2 as fresh zero arrays and never
copies the decoded payload into them. -/
theorem c2_score_is_zero :
    isOk (analyzeStyle S4 7 [1, 2, 3, 4, 5, 6] true) = true ∧
      (S5.styleMatches 1).encryptedSimilarityScore.value = 0 := by
  refine ⟨rfl, rfl⟩

/-- C3 counterexample: with the token-7 style-analysis request still
outstanding, a second requestStyleAnalysis for the same artwork pair is
accepted (the claim says it must fail with ConflictingRequest and issue no
new oracle request); the new token 8 gets its own correlation entries. -/
theorem c3_second_request_accepted :
    requestStyleAnalysis S3 1 2 7 = Except.ok S4 ∧
      isOk (requestStyleAnalysis S4 1 2 8) = true ∧
      (okOr (requestStyleAnalysis S4 1 2 8) S4).requestToArtworkId 8 = 1 := by
  refine ⟨rfl, rfl, rfl⟩

/-- C4 counterexample: in state S2 no Analysis exists at all (analysisCount
is 0), so no analysis id is in state Scored; still, verifyAuthenticity on
analysis id 0 with the registered artist 1 is accepted and an oracle
request is issued, instead of failing with InvalidState. -/
theorem c4_accepts_unscored :
    S2.analysisCount = 0 ∧ isOk (verifyAuthenticity S2 0 1 9) = true := by
  refine ⟨rfl, rfl⟩

/-- C5 counterexample: analysis 1 reaches the terminal verdict Verified in
S7, yet replaying the token-11 verification callback with a sub-threshold
similarity flips the stored verdict back to false: terminal states are not
protected. -/
theorem c5_terminal_verdict_overwritten :
    (S7.styleMatches 1).isVerified = true ∧
      checkSignature S7 11 [5000, 9000] true = Except.ok S8 ∧
      (S8.styleMatches 1).isVerified = false := by
  refine ⟨rfl, rfl, rfl⟩

/-- C7 counterexample: artwork id 0 is reserved as no-record, yet
requestStyleAnalysis with artworkId 0 is accepted, creates a correlation
entry for token 13 and issues an oracle request, instead of failing with
InvalidReference. -/
theorem c7_zero_id_accepted :
    isOk (requestStyleAnalysis S2 0 1 13) = true ∧
      (okOr (requestStyleAnalysis S2 0 1 13) S2).requestToAnalysisId 13 = 1 := by
  refine ⟨rfl, rfl⟩

/-- C8 counterexample: token 7 was opened by requestStyleAnalysis (a
score-callback token), but delivering it to the signature-verification
handler checkSignature is accepted and mutates styleMatches at the stored
reference id 2, instead of failing with KindMismatch and leaving state
unchanged. -/
theorem c8_cross_kind_accepted :
    S4.requestToArtworkId 7 = 1 ∧
      isOk (checkSignature S4 7 [9000, 9000] true) = true ∧
      (S4cross.styleMatches 2).isVerified = true := by
  refine ⟨rfl, rfl, rfl⟩

/-- C9: submitArtwork with an externally encrypted artist reference (handle
999) increments a profile count even though the reference does not resolve:
with plaintext 5 while no artist exists (artistCount 0) it creates a count
on the nonexistent profile 5, and with plaintext 0 it even increments
profile 0, because the zero-guard on line 63 compares ciphertext handles,
not decrypted values. -/
theorem c9_phantom_increment :
    (submitArtwork initState (asEuint32 1) (asEuint32 2) ⟨999, 5⟩ 0).artistCount = 0 ∧
      ((submitArtwork initState (asEuint32 1) (asEuint32 2) ⟨999, 5⟩ 0).artistProfiles 5).artworkCount = 1 ∧
      ((submitArtwork initState (asEuint32 1) (asEuint32 2) ⟨999, 0⟩ 0).artistProfiles 0).artworkCount = 1 := by
  refine ⟨rfl, rfl, rfl⟩

/-- C10 counterexample: after the score-request token 7 (whose stored
reference id is 2) is delivered to checkSignature, the state S4cross has
analysisCount 0 — no Analysis record exists at any id — yet
getVerificationStatus reports analysis 2 as verified. -/
theorem c10_unknown_id_verified :
    S4cross.analysisCount = 0 ∧ getVerificationStatus S4cross 2 = true := by
  refine ⟨rfl, rfl⟩

/-- C3 amended: whether requestStyleAnalysis succeeds depends only on the
two id bounds against artworkCount — outstanding correlation entries are
never consulted, so a duplicate request for the same pair is accepted and
issues a fresh oracle request. -/
theorem c3_success_ignores_outstanding (s : ContractState) (a r q : Nat) :
    isOk (requestStyleAnalysis s a r q) = true ↔
      (a ≤ s.artworkCount ∧ r ≤ s.artworkCount) := by
  unfold requestStyleAnalysis
  split
  · rename_i h1
    simp only [isOk]
    constructor
    · intro hf; cases hf
    · intro hc; omega
  · split
    · rename_i h1 h2
      simp only [isOk]
      constructor
      · intro hf; cases hf
      · intro hc; omega
    · rename_i h1 h2
      simp only [isOk]
      constructor
      · intro _; omega
      · intro _; trivial

/-- C4 amended: verifyAuthenticity succeeds precisely when analysisId is
at most analysisCount and artistId is at most artistCount; there is no
workflow-state check, so in particular analysisId 0 — which resolves to no
Analysis at all — is always accepted. -/
theorem c4_no_state_check (s : ContractState) (a art q : Nat) :
    isOk (verifyAuthenticity s a art q) = true ↔
      (a ≤ s.analysisCount ∧ art ≤ s.artistCount) := by
  unfold verifyAuthenticity
  split
  · rename_i h1
    simp only [isOk]
    constructor
    · intro hf; cases hf
    · intro hc; omega
  · split
    · rename_i h1 h2
      simp only [isOk]
      constructor
      · intro hf; cases hf
      · intro hc; omega
    · rename_i h1 h2
      simp only [isOk]
      constructor
      · intro _; omega
      · intro _; trivial

/-- C5 amended: from any state whose correlation table maps a token to a
nonzero analysis id — including a state whose verdict is already Verified —
a signature callback with sub-threshold values is accepted and resets the
stored verdict to false; terminal verdicts are never protected. -/
theorem c5_verdict_always_overwritable (s : ContractState) (q : Nat)
    (h0 : s.requestToAnalysisId q ≠ 0) :
    ∃ s', checkSignature s q [0, 0] true = Except.ok s' ∧
      (s'.styleMatches (s.requestToAnalysisId q)).isVerified = false := by
  refine
    ⟨{ s with
        styleMatches := mapUpdate s.styleMatches (s.requestToAnalysisId q)
          { s.styleMatches (s.requestToAnalysisId q) with isVerified := verdictRule 0 0 } },
      ?_, ?_⟩
  · unfold checkSignature
    rw [if_neg h0]
    rfl
  · simp [mapUpdate, verdictRule]

/-- C5 amended witness at the concrete trace: S7 holds the terminal
verdict Verified for analysis 1, and the theorem applied at S7 with token
11 resets it. -/
theorem c5_verdict_always_overwritable_witness :
    (S7.styleMatches 1).isVerified = true ∧
      (∃ s', checkSignature S7 11 [0, 0] true = Except.ok s' ∧
        (s'.styleMatches (S7.requestToAnalysisId 11)).isVerified = false) :=
  ⟨rfl, c5_verdict_always_overwritable S7 11 (by decide)⟩

/-- C6: an accepted signature-verification callback marks the analysis
verified exactly when the decoded similarity exceeds 7000 and the decoded
signature match exceeds 8000 (line 158); otherwise the stored verdict is
false. -/
theorem c6_verdict_thresholds (s : ContractState) (q p1 p2 : Nat)
    (rest : List Nat) (s' : ContractState)
    (h : checkSignature s q (p1 :: p2 :: rest) true = Except.ok s') :
    ((s'.styleMatches (s.requestToAnalysisId q)).isVerified = true ↔
      (7000 < p1 ∧ 8000 < p2)) := by
  unfold checkSignature at h
  by_cases h0 : s.requestToAnalysisId q = 0
  · rw [if_pos h0] at h
    cases h
  · rw [if_neg h0, if_neg (by decide : ¬ (true = false))] at h
    by_cases hl : uint32ListOk (p1 :: p2 :: rest) = false
    · rw [if_pos hl] at h
      cases h
    · rw [if_neg hl] at h
      injection h with h2
      subst h2
      simp [mapUpdate, verdictRule]

/-- C6 witness: at the concrete trace, the callback decoding to
similarity 8000 and signature match 9000 yields a Verified analysis. -/
theorem c6_verdict_thresholds_witness :
    ((S7.styleMatches (S6.requestToAnalysisId 11)).isVerified = true ↔
      (7000 < (8000 : Nat) ∧ 8000 < (9000 : Nat))) :=
  c6_verdict_thresholds S6 11 8000 9000 [] S7 rfl

/-- C7 amended: ids strictly greater than artworkCount are rejected before
any state change (Invalid artwork / Invalid reference, matching the two
require clauses); any ids at most artworkCount — including the reserved
no-record id 0 — are accepted, the correlation entries for the fresh token
are written and the oracle request is issued. -/
theorem c7_bounds_only (s : ContractState) (a r q : Nat) :
    (s.artworkCount < a →
      requestStyleAnalysis s a r q = Except.error Err.invalidArtwork) ∧
    (a ≤ s.artworkCount → s.artworkCount < r →
      requestStyleAnalysis s a r q = Except.error Err.invalidReference) ∧
    (a ≤ s.artworkCount → r ≤ s.artworkCount →
      requestStyleAnalysis s a r q = Except.ok
        { s with
          requestToArtworkId := mapUpdate s.requestToArtworkId q a
          requestToAnalysisId := mapUpdate s.requestToAnalysisId q r }) := by
  unfold requestStyleAnalysis
  refine ⟨?_, ?_, ?_⟩
  · intro h1
    rw [if_pos h1]
  · intro h1 h2
    rw [if_neg (by omega), if_pos h2]
  · intro h1 h2
    rw [if_neg (by omega), if_neg (by omega)]

/-- C7 amended witness: with one artwork stored, id 2 is rejected while
ids 0 and 1 are accepted and the token-13 correlation entries are written. -/
theorem c7_bounds_only_witness :
    requestStyleAnalysis S2 2 1 14 = Except.error Err.invalidArtwork ∧
      requestStyleAnalysis S2 0 1 13 = Except.ok
        { S2 with
          requestToArtworkId := mapUpdate S2.requestToArtworkId 13 0
          requestToAnalysisId := mapUpdate S2.requestToAnalysisId 13 1 } :=
  ⟨(c7_bounds_only S2 2 1 14).1 (by decide),
   (c7_bounds_only S2 0 1 13).2.2 (by decide) (by decide)⟩

/-- C8 amended: the contract has no request kinds.  A token opened by
verifyAuthenticity is rejected by analyzeStyle only because
requestToArtworkId was never written for it (Invalid request, not any
KindMismatch), while a token opened by requestStyleAnalysis is accepted by
checkSignature whenever its stored reference id is nonzero, mutating
styleMatches at that id; no handler ever consumes a token. -/
theorem c8_no_kind_tags (s : ContractState) (q : Nat) (p : List Nat) (v1 v2 : Nat) :
    (s.requestToArtworkId q = 0 →
      analyzeStyle s q p true = Except.error Err.invalidRequest) ∧
    (s.requestToAnalysisId q ≠ 0 → v1 < 2 ^ 32 → v2 < 2 ^ 32 →
      isOk (checkSignature s q [v1, v2] true) = true) := by
  constructor
  · intro h1
    unfold analyzeStyle
    rw [if_pos (Or.inl h1)]
  · intro h0 hv1 hv2
    unfold checkSignature
    rw [if_neg h0]
    have hlist : uint32ListOk [v1, v2] = true := by
      simp only [uint32ListOk, List.all_cons, List.all_nil, Bool.and_true,
        Bool.and_eq_true, decide_eq_true_eq]
      exact ⟨hv1, hv2⟩
    rw [hlist]
    rfl

/-- C8 amended witness: the verification token 11 presented to
analyzeStyle is rejected as Invalid request, while the style token 7
presented to checkSignature is accepted. -/
theorem c8_no_kind_tags_witness :
    analyzeStyle S6 11 [1, 2, 3, 4, 5, 6] true = Except.error Err.invalidRequest ∧
      isOk (checkSignature S4 7 [9000, 9000] true) = true :=
  ⟨(c8_no_kind_tags S6 11 [1, 2, 3, 4, 5, 6] 0 0).1 (by decide),
   (c8_no_kind_tags S4 7 [] 9000 9000).2 (by decide) (by decide) (by decide)⟩

/-! ### Invariant: styleMatches slot 0 is never written

Both writers of styleMatches target a nonzero key: analyzeStyle writes at
analysisCount + 1, checkSignature at an analysis id its guard requires to
be nonzero.  Hence slot 0 keeps its zero default in every reachable state. -/

theorem styleMatches_zero_submitArtwork (s : ContractState)
    (a b c : EUint32) (t : Nat) :
    (submitArtwork s a b c t).styleMatches 0 = s.styleMatches 0 := by
  unfold submitArtwork
  split <;> rfl

theorem styleMatches_requestStyleAnalysis {s s' : ContractState} {a r q : Nat}
    (h : requestStyleAnalysis s a r q = Except.ok s') :
    s'.styleMatches 0 = s.styleMatches 0 := by
  unfold requestStyleAnalysis at h
  by_cases h1 : s.artworkCount < a
  · rw [if_pos h1] at h
    cases h
  · rw [if_neg h1] at h
    by_cases h2 : s.artworkCount < r
    · rw [if_pos h2] at h
      cases h
    · rw [if_neg h2] at h
      injection h with h3
      subst h3
      rfl

theorem styleMatches_zero_analyzeStyle {s s' : ContractState} {q : Nat}
    {p : List Nat} {pk : Bool}
    (h : analyzeStyle s q p pk = Except.ok s') :
    s'.styleMatches 0 = s.styleMatches 0 := by
  unfold analyzeStyle at h
  by_cases h1 : s.requestToArtworkId q = 0 ∨ s.requestToAnalysisId q = 0
  · rw [if_pos h1] at h
    cases h
  · rw [if_neg h1] at h
    by_cases h2 : pk = false
    · rw [if_pos h2] at h
      cases h
    · rw [if_neg h2] at h
      by_cases h3 : uint32ListOk p = false
      · rw [if_pos h3] at h
        cases h
      · rw [if_neg h3] at h
        simp only [] at h
        split at h
        · split at h
          · cases h
          · split at h
            · injection h with h4
              subst h4
              simp [mapUpdate]
            · injection h with h4
              subst h4
              simp [mapUpdate]
        · cases h

theorem styleMatches_zero_verifyAuthenticity {s s' : ContractState}
    {a art q : Nat}
    (h : verifyAuthenticity s a art q = Except.ok s') :
    s'.styleMatches 0 = s.styleMatches 0 := by
  unfold verifyAuthenticity at h
  by_cases h1 : s.analysisCount < a
  · rw [if_pos h1] at h
    cases h
  · rw [if_neg h1] at h
    by_cases h2 : s.artistCount < art
    · rw [if_pos h2] at h
      cases h
    · rw [if_neg h2] at h
      injection h with h3
      subst h3
      rfl

theorem styleMatches_zero_checkSignature {s s' : ContractState} {q : Nat}
    {p : List Nat} {pk : Bool}
    (h : checkSignature s q p pk = Except.ok s') :
    s'.styleMatches 0 = s.styleMatches 0 := by
  unfold checkSignature at h
  by_cases h1 : s.requestToAnalysisId q = 0
  · rw [if_pos h1] at h
    cases h
  · rw [if_neg h1] at h
    by_cases h2 : pk = false
    · rw [if_pos h2] at h
      cases h
    · rw [if_neg h2] at h
      by_cases h3 : uint32ListOk p = false
      · rw [if_pos h3] at h
        cases h
      · rw [if_neg h3] at h
        split at h
        · injection h with h4
          subst h4
          simp only [mapUpdate]
          rw [if_neg (fun hz => h1 hz.symm)]
        · cases h

theorem styleMatches_zero_requestAnalysisProof {s s' : ContractState}
    {a q : Nat}
    (h : requestAnalysisProof s a q = Except.ok s') :
    s'.styleMatches 0 = s.styleMatches 0 := by
  unfold requestAnalysisProof at h
  by_cases h1 : s.analysisCount < a
  · rw [if_pos h1] at h
    cases h
  · rw [if_neg h1] at h
    by_cases h2 : (s.styleMatches a).isVerified = false
    · rw [if_pos h2] at h
      cases h
    · rw [if_neg h2] at h
      injection h with h3
      subst h3
      rfl

theorem styleMatches_zero_decryptSimilarity {s s' : ContractState} {q : Nat}
    {p : List Nat} {pk : Bool}
    (h : decryptSimilarity s q p pk = Except.ok s') :
    s'.styleMatches 0 = s.styleMatches 0 := by
  unfold decryptSimilarity at h
  by_cases h1 : s.requestToAnalysisId q = 0
  · rw [if_pos h1] at h
    cases h
  · rw [if_neg h1] at h
    by_cases h2 : pk = false
    · rw [if_pos h2] at h
      cases h
    · rw [if_neg h2] at h
      split at h
      · split at h
        · injection h with h3
          subst h3
          rfl
        · cases h
      · cases h

/-- Every single transition leaves styleMatches slot 0 untouched. -/
theorem styleMatches_zero_step {s s' : ContractState} :
    Step s s' → s'.styleMatches 0 = s.styleMatches 0
  | Step.register _ _ => rfl
  | Step.submit _ ih sv aid ts => styleMatches_zero_submitArtwork _ ih sv aid ts
  | Step.reqAnalysis _ _ _ _ _ h => styleMatches_requestStyleAnalysis h
  | Step.analyze _ _ _ _ _ h => styleMatches_zero_analyzeStyle h
  | Step.verify _ _ _ _ _ h => styleMatches_zero_verifyAuthenticity h
  | Step.checkSig _ _ _ _ _ h => styleMatches_zero_checkSignature h
  | Step.reqProof _ _ _ _ h => styleMatches_zero_requestAnalysisProof h
  | Step.decSim _ _ _ _ _ h => styleMatches_zero_decryptSimilarity h

/-- C10 amended: in every reachable contract state, getVerificationStatus
is a total read that reports analysis id 0 — the reserved no-record id —
as not verified. -/
theorem c10_slot_zero_never_verified (s : ContractState) (h : Reachable s) :
    getVerificationStatus s 0 = false := by
  induction h with
  | init => rfl
  | step hr hst ih =>
    unfold getVerificationStatus at ih ⊢
    rw [styleMatches_zero_step hst]
    exact ih

/-- C10 amended witness: the invariant applied at the deployment state. -/
theorem c10_slot_zero_never_verified_witness :
    getVerificationStatus initState 0 = false :=
  c10_slot_zero_never_verified initState Reachable.init

end ArtStyleFHE
